import Mathlib

/-!
Verification of the x86/AMD-SVM intercept dispatcher and guest address
translation code (amd_intercept.c, arch_guest_helper.c) of the xvisor
hypervisor.

Machine integers are embedded as `Nat` with explicit `% 2^w` (and masks)
wherever the C code truncates.  Hardware state (the VMCB and the
architectural register file) is a Lean structure; external collaborators
(host memory, device emulation, region registry, the instruction
fetch/decode bridge) are explicit parameters.
-/

namespace Xvisor

/-! ## Architectural and header constants

The values below are AMD-SVM architectural exit codes and x86 CR0 bit
positions (from the AMD manual; the repository's headers mirror them). -/

def VMEXIT_CR0_READ : Nat := 0x00
def VMEXIT_CR15_READ : Nat := 0x0f
def VMEXIT_CR0_WRITE : Nat := 0x10
def VMEXIT_CR15_WRITE : Nat := 0x1f
def VMEXIT_EXCEPTION_DE : Nat := 0x40
def VMEXIT_EXCEPTION_PF : Nat := 0x4e
def VMEXIT_EXCEPTION_XF : Nat := 0x53
def VMEXIT_INTR : Nat := 0x60
def VMEXIT_POPF : Nat := 0x71
def VMEXIT_CPUID : Nat := 0x72
def VMEXIT_IRET : Nat := 0x74
def VMEXIT_SWINT : Nat := 0x75
def VMEXIT_IOIO : Nat := 0x7b
def VMEXIT_MSR : Nat := 0x7c
def VMEXIT_SHUTDOWN : Nat := 0x7f
def VMEXIT_VMMCALL : Nat := 0x81
def VMEXIT_NPF : Nat := 0x400

def X86_CR0_PE : Nat := 2 ^ 0
def X86_CR0_NW : Nat := 2 ^ 29
def X86_CR0_CD : Nat := 2 ^ 30
def X86_CR0_PG : Nat := 2 ^ 31

def PAGE_SHIFT : Nat := 12
def PAGE_SIZE : Nat := 4096
/-- `PAGE_MASK = ~(PAGE_SIZE - 1)` as an unsigned 64-bit constant. -/
def PAGE_MASK : Nat := 2 ^ 64 - PAGE_SIZE

/-- Modelled from the spec: the decode model's register identifiers
(`cpu_inst_decode.h` is not part of the given sources).  The accumulator
is index 0 (forced by the pairing of `g_regs[0]` with hardware `rax` in
the intercept handlers); the general registers are `0 ≤ r < RM_REG_MAX`
and the control-register ids lie outside that range. -/
def RM_REG_AX : Nat := 0
def RM_REG_MAX : Nat := 16
def RM_REG_CR0 : Nat := 17
def RM_REG_CR1 : Nat := 18
def RM_REG_CR2 : Nat := 19
def RM_REG_CR3 : Nat := 20

/-- Modelled from the spec: operand-type tag values of the decode model
(`cpu_inst_decode.h` missing); only equality with `OP_TYPE_IMM` is ever
tested by the handlers. -/
def OP_TYPE_IMM : Nat := 1
def OP_TYPE_MEM : Nat := 2

def GUEST_REGS_RAX : Nat := 0
def GUEST_REGS_RBX : Nat := 1
def GUEST_REGS_RCX : Nat := 2
def GUEST_REGS_RDX : Nat := 3

/-- Modelled from the spec: region attribute flags (`vmm_guest_aspace.h`
missing); distinct bits, combined and tested with bitwise masks. -/
def VMM_REGION_REAL : Nat := 0x1
def VMM_REGION_MEMORY : Nat := 0x2
def VMM_REGION_IOPORT : Nat := 0x4

def CPUID_BASE_VENDORSTRING : Nat := 0
def CPUID_BASE_FEATURES : Nat := 1
def CPUID_EXTENDED_BASE : Nat := 0x80000000
def CPUID_EXTENDED_BRANDSTRING : Nat := 0x80000002
def CPUID_EXTENDED_BRANDSTRINGMORE : Nat := 0x80000003

/-! ## Data model -/

/-- The hardware-defined control block (`struct vmcb`): the fields the
dispatcher reads and writes.  All fields are 64-bit machine words except
`cs_sel`, the 16-bit code-segment selector `cs.sel`. -/
structure VMCB where
  exitcode : Nat
  exitinfo1 : Nat
  exitinfo2 : Nat
  rip : Nat
  rax : Nat
  cr0 : Nat
  cr2 : Nat
  cr3 : Nat
  cs_sel : Nat
deriving Repr, DecidableEq

/-- Per-VCPU hardware context (`struct vcpu_hw_context`): the VMCB, the
shadow (guest-software-visible) control registers `g_cr0..g_cr3`, the
general-register file `g_regs`, the real-mode shadow page-table state,
and two bookkeeping flags for control flow that leaves the handler:
`shutdown_req` records that `vcpu_emergency_shutdown` was invoked, and
`halted` records `vmm_panic`/`vmm_hang` (which never return in C). -/
structure HWContext where
  vmcb : VMCB
  g_cr0 : Nat
  g_cr1 : Nat
  g_cr2 : Nat
  g_cr3 : Nat
  g_regs : Nat → Nat
  shadow32_pgt : Nat → Nat
  pgmap_free_cache : Nat
  shadow32_pg_map : List Bool
  shadow32_pg_list : Nat
  shutdown_req : Bool
  halted : Bool

/-- `if (context->vcpu_emergency_shutdown) context->vcpu_emergency_shutdown(context)`:
the registered emergency-shutdown hook is invoked (modelled as a flag). -/
def guest_bad_fault (c : HWContext) : HWContext := { c with shutdown_req := true }

/-- Write a general register: `g_regs[i] = v`. -/
def updReg (f : Nat → Nat) (i v : Nat) : Nat → Nat := fun j => if j = i then v else f j

/-- Guest memory region descriptor (the fields the handlers consult). -/
structure VmmRegion where
  gphys_addr : Nat
  hphys_addr : Nat
  phys_size : Nat
  flags : Nat
deriving Repr, DecidableEq

/-- One CPUID response tuple. -/
structure CpuidResponse where
  resp_eax : Nat
  resp_ebx : Nat
  resp_ecx : Nat
  resp_edx : Nat
deriving Repr, DecidableEq

/-- The decoded-instruction variants the handlers consume
(`x86_decoded_inst_t`): a generic move (`inst.gen_mov`), a
control-register move (`inst.crn_mov`), or an unsupported shape. -/
structure GenMovInst where
  src_type : Nat
  dst_type : Nat
  src_addr : Nat
  dst_addr : Nat
  op_size : Nat
deriving Repr, DecidableEq

structure CrnMovInst where
  src_reg : Nat
  dst_reg : Nat
deriving Repr, DecidableEq

inductive InstKind where
  | genMov (m : GenMovInst)
  | crMov (m : CrnMovInst)
  | unsupported
deriving Repr, DecidableEq

structure DecodedInst where
  kind : InstKind
  inst_size : Nat
deriving Repr, DecidableEq

/-- Host memory as seen through `vmm_host_memory_read/write`: a partial
word store.  `valid a = false` models a short read/write at `a`. -/
structure HostMem where
  valid : Nat → Bool
  mem : Nat → Nat

/-- `vmm_host_memory_read(addr, &x, 4, TRUE)`: `none` models a short read. -/
def hostRead (hm : HostMem) (a : Nat) : Option Nat :=
  if hm.valid a then some (hm.mem a) else none

/-- `vmm_host_memory_write(addr, &x, 4, TRUE)`: `none` models a short write. -/
def hostWrite (hm : HostMem) (a v : Nat) : Option HostMem :=
  if hm.valid a then
    some { hm with mem := fun x => if x = a then v else hm.mem x }
  else none

/-- External collaborators of the handlers: the instruction fetch/decode
bridge (`guest_read_fault_inst` + `x86_decode_inst`, combined outcome;
`none` is any fetch/translation/decode failure), device emulation, the
region registry, `vmm_host_va2pa`, decode-assist availability, and the
CPUID response tables. -/
structure Env where
  decode_assist : Bool
  fetch_decode : Option DecodedInst
  ioread : Nat → Nat → Option Nat
  iowrite : Nat → Nat → Nat → Bool
  mmio_read : Nat → Nat → Option Nat
  mmio_write : Nat → Nat → Nat → Bool
  find_region : Nat → Option VmmRegion
  va2pa : Nat → Option Nat
  standard_funcs : Nat → CpuidResponse
  extended_funcs : Nat → CpuidResponse

/-! ## Address translation (arch_guest_helper.c) -/

/-- `gva_to_gpa`: guest-virtual to guest-physical translation.  If the
guest's virtualized CR0 has paging disabled the translation is the
identity, with real-mode segmentation `(cs.sel << 4) | vaddr` applied
when protection is also disabled; with paging enabled it fails. -/
def gva_to_gpa (c : HWContext) (vaddr : Nat) : Option Nat :=
  if c.g_cr0 &&& X86_CR0_PG = 0 then
    if c.g_cr0 &&& X86_CR0_PE = 0 then
      some ((c.vmcb.cs_sel <<< 4) ||| vaddr)
    else
      some vaddr
  else
    none

/-- `gpa_to_hpa`: two-level 32-bit page walk.  `u32 tcr3 = (u32)cr3`
truncates the page-table base; the directory and table entries are
4-byte reads through the host-memory primitive, each checked for its
present bit (bit 0). -/
def gpa_to_hpa (hm : HostMem) (cr3 gpa : Nat) : Option Nat :=
  let tcr3 := cr3 % 2 ^ 32
  let pde_addr := (tcr3 &&& 0xfffff000) + 4 * ((gpa >>> 22) &&& 0x3ff)
  match hostRead hm pde_addr with
  | none => none
  | some pde0 =>
    let pde := pde0 % 2 ^ 32
    if pde &&& 0x1 = 0 then none
    else
      let pte_addr := (pde &&& 0xfffff000) + 4 * ((gpa >>> 12) &&& 0x3ff)
      match hostRead hm pte_addr with
      | none => none
      | some pte0 =>
        let pte := pte0 % 2 ^ 32
        if pte &&& 0x1 = 0 then none
        else some ((pte &&& PAGE_MASK) + (gpa &&& 0xfff))

/-- The page walk exactly as claim C3 words it: the page-directory entry
is read at `(cr3 & ~0xfff) + 4*dir_index` with the FULL (untruncated)
value of cr3, and the result is `(pte & page_mask) | (gpa & ~page_mask)`
(`~0xfff` and `page_mask` both denote the 64-bit mask `PAGE_MASK`,
whose complement is `0xfff`). -/
def gpa_to_hpa_spec (hm : HostMem) (cr3 gpa : Nat) : Option Nat :=
  let pde_addr := (cr3 &&& PAGE_MASK) + 4 * ((gpa >>> 22) &&& 0x3ff)
  match hostRead hm pde_addr with
  | none => none
  | some pde =>
    if pde &&& 0x1 = 0 then none
    else
      let pte_addr := (pde &&& PAGE_MASK) + 4 * ((gpa >>> 12) &&& 0x3ff)
      match hostRead hm pte_addr with
      | none => none
      | some pte =>
        if pte &&& 0x1 = 0 then none
        else some ((pte &&& PAGE_MASK) ||| (gpa &&& 0xfff))

/-! ## Intercept handlers (amd_intercept.c) -/

/-- Hardware CR0 propagation of `__handle_crN_write` (lines 395-405):
`bits_set & PE` sets hardware PE, `bits_set & PG` sets hardware PG,
`bits_clrd & CD` clears hardware CD, `bits_clrd & NW` clears hardware
NW; `~X86_CR0_CD`/`~X86_CR0_NW` are 64-bit complements. -/
def cr0_hw_update (cr0 bs bc : Nat) : Nat :=
  let a := if bs &&& X86_CR0_PE ≠ 0 then cr0 ||| X86_CR0_PE else cr0
  let b := if bs &&& X86_CR0_PG ≠ 0 then a ||| X86_CR0_PG else a
  let d := if bc &&& X86_CR0_CD ≠ 0 then b &&& ((2 ^ 64 - 1) ^^^ X86_CR0_CD) else b
  if bc &&& X86_CR0_NW ≠ 0 then d &&& ((2 ^ 64 - 1) ^^^ X86_CR0_NW) else d

/-- `__handle_crN_read`: control-register read intercept.  With decode
assist the handler only logs; otherwise it consumes the fetch/decode
outcome, and on a control-register move computes `rvalue` from the
shadowed register named by `src_reg`, stores `rvalue` into hardware rax
when `dst_reg` is 0, stores `g_cr0` into `g_regs[dst_reg]` (exactly as
line 326 of the source does), and advances rip.  The `default` arms of
the outer `switch(crn)` only log. -/
def handle_crN_read (env : Env) (c : HWContext) : HWContext :=
  let crn : Int := (c.vmcb.exitcode : Int) - (VMEXIT_CR0_READ : Int)
  if crn = 0 then
    if env.decode_assist then c
    else
      match env.fetch_decode with
      | none => guest_bad_fault c
      | some dinst =>
        match dinst.kind with
        | InstKind.crMov m =>
          let rvalue? : Option Nat :=
            if m.src_reg = RM_REG_CR0 then some c.g_cr0
            else if m.src_reg = RM_REG_CR1 then some c.g_cr1
            else if m.src_reg = RM_REG_CR2 then some c.g_cr2
            else if m.src_reg = RM_REG_CR3 then some c.g_cr3
            else none
          match rvalue? with
          | none => guest_bad_fault c
          | some rvalue =>
            let c1 :=
              if m.dst_reg = 0 then
                { c with vmcb := { c.vmcb with rax := rvalue } }
              else c
            { c1 with
              g_regs := updReg c1.g_regs m.dst_reg c1.g_cr0,
              vmcb := { c1.vmcb with rip := (c1.vmcb.rip + dinst.inst_size) % 2 ^ 64 } }
        | _ => guest_bad_fault c
  else if crn = 3 then c
  else c

/-- `__handle_crN_write`: control-register write intercept.  With decode
assist the handler only logs; otherwise, on a control-register move to
CR0, the new value comes from hardware rax when `src_reg` is 0 and from
`g_regs[src_reg]` otherwise; `bits_set`/`bits_clrd` are truncated to u32;
`g_cr0` takes the new value, the hardware cr0 gets the four bit
propagations, and rip advances.  The `default` arms only log. -/
def handle_crN_write (env : Env) (c : HWContext) : HWContext :=
  let crn : Int := (c.vmcb.exitcode : Int) - (VMEXIT_CR0_WRITE : Int)
  if crn = 0 then
    if env.decode_assist then c
    else
      match env.fetch_decode with
      | none => guest_bad_fault c
      | some dinst =>
        match dinst.kind with
        | InstKind.crMov m =>
          if m.dst_reg = RM_REG_CR0 then
            let v := if m.src_reg = 0 then c.vmcb.rax else c.g_regs m.src_reg
            let bits_set := (((2 ^ 64 - 1) ^^^ c.g_cr0) &&& v) % 2 ^ 32
            let bits_clrd := (c.g_cr0 &&& ((2 ^ 64 - 1) ^^^ v)) % 2 ^ 32
            { c with
              g_cr0 := v,
              vmcb := { c.vmcb with
                          cr0 := cr0_hw_update c.vmcb.cr0 bits_set bits_clrd,
                          rip := (c.vmcb.rip + dinst.inst_size) % 2 ^ 64 } }
          else guest_bad_fault c
        | _ => guest_bad_fault c
  else if crn = 3 then c
  else c

/-! ## Real-mode shadow page table (arch_guest_helper.c) -/

/-- `union page32` bit fields: present = bit 0, rw = bit 1,
paddr = bits 12..31. -/
def pg_present (p : Nat) : Bool := p.testBit 0

def pg_rw (p : Nat) : Bool := p.testBit 1

def pg_paddr (p : Nat) : Nat := (p >>> 12) % 2 ^ 20

/-- `e.present = 1; e.rw = 1`: set bits 0 and 1. -/
def pg_set_present_rw (p : Nat) : Nat := p ||| 0x3

/-- `e.paddr = f`: replace bits 12..31 by the 20-bit frame, keep bits 0..11. -/
def pg_set_paddr (p f : Nat) : Nat := ((f % 2 ^ 20) <<< 12) ||| (p &&& 0xfff)

inductive RMResult where
  | ok
  | efail
  | panicked
deriving Repr, DecidableEq

/-- Modelled from the spec: `bitmap_find_free_region(map, n, 0)` (the
bitmap library is not among the given sources) — first-fit scan for a
free (false) index; the caller marks it allocated. -/
def findFreeIdx (l : List Bool) : Option Nat := l.findIdx? (fun b => b = false)

/-- `realmode_map_memory`: install a shadow 32-bit mapping for `vaddr`.
If the page-directory entry is absent, pick a backing-page index
(preferring `pgmap_free_cache`, else a bitmap scan whose successor is
cached), mark the entry present/writable, resolve the backing page's
host-physical address (`vmm_host_va2pa` failure panics), and store its
frame.  Then read the page-table entry through host memory; fail on a
short read, fail if it is already present, else mark it
present/writable with frame `paddr >> PAGE_SHIFT` and write it back.
The unused `size` argument of the C function is dropped. -/
def realmode_map_memory (env : Env) (hm : HostMem) (c : HWContext)
    (vaddr paddr : Nat) : RMResult × HWContext × HostMem :=
  let pde_idx := (vaddr >>> 22) &&& 0x3ff
  let pde := c.shadow32_pgt pde_idx
  let afterAlloc : RMResult × HWContext :=
    if pg_present pde then (RMResult.ok, c)
    else
      let pick : Nat × HWContext :=
        if c.pgmap_free_cache ≠ 0 then
          (c.pgmap_free_cache, { c with pgmap_free_cache := 0 })
        else
          match findFreeIdx c.shadow32_pg_map with
          | some boffs =>
            (boffs, { c with shadow32_pg_map := c.shadow32_pg_map.set boffs true,
                             pgmap_free_cache := boffs + 1 })
          | none => (2 ^ 32 - 1, { c with pgmap_free_cache := 0 })
      let index := pick.1
      let c1 := { pick.2 with
                  shadow32_pgt := updReg pick.2.shadow32_pgt pde_idx (pg_set_present_rw pde) }
      let tvaddr := c1.shadow32_pg_list + index * PAGE_SIZE
      match env.va2pa tvaddr with
      | none => (RMResult.panicked, { c1 with halted := true })
      | some tpaddr =>
        (RMResult.ok,
         { c1 with shadow32_pgt := (updReg c1.shadow32_pgt pde_idx
             (pg_set_paddr (c1.shadow32_pgt pde_idx) (tpaddr >>> PAGE_SHIFT))) })
  match afterAlloc with
  | (RMResult.panicked, cp) => (RMResult.panicked, cp, hm)
  | (_, c1) =>
    let pdeF := c1.shadow32_pgt pde_idx
    let pte_addr := (pg_paddr pdeF <<< PAGE_SHIFT) + 4 * ((vaddr >>> 12) &&& 0x3ff)
    match hostRead hm pte_addr with
    | none => (RMResult.efail, c1, hm)
    | some pte0 =>
      let pte := pte0 % 2 ^ 32
      if pg_present pte then (RMResult.efail, c1, hm)
      else
        let newpte := pg_set_paddr (pg_set_present_rw pte) (paddr >>> PAGE_SHIFT)
        match hostWrite hm pte_addr newpte with
        | none => (RMResult.efail, c1, hm)
        | some hm1 => (RMResult.ok, c1, hm1)

/-! ## Remaining intercept handlers and the dispatcher -/

def handle_vm_npf (c : HWContext) : HWContext := guest_bad_fault c

def handle_vm_swint (c : HWContext) : HWContext := guest_bad_fault c

def handle_vm_wrmsr (c : HWContext) : HWContext := guest_bad_fault c

def handle_popf (c : HWContext) : HWContext := guest_bad_fault c

def handle_vm_vmmcall (c : HWContext) : HWContext := guest_bad_fault c

def handle_vm_iret (c : HWContext) : HWContext := guest_bad_fault c

/-- `__handle_triple_fault`: escalate, then `vmm_hang()`. -/
def handle_triple_fault (c : HWContext) : HWContext :=
  { guest_bad_fault c with halted := true }

/-- `__handle_vm_exception`: page-fault service.  For a REAL region,
create a shadow mapping to `hphys_addr + fault_gphys` and set CR2;
otherwise decode the faulting instruction (a generic move is required),
emulate a device read when the move's source lies in the region (loading
a supported destination register, with hardware rax mirrored for the
accumulator), emulate a device write when the destination lies in the
region (from an immediate, or hardware rax when the destination index is
the accumulator, else the source register), and advance rip; every other
outcome escalates. -/
def handle_vm_exception (env : Env) (c : HWContext) (hm : HostMem) :
    HWContext × HostMem :=
  if c.vmcb.exitcode = VMEXIT_EXCEPTION_PF then
    let fault_gphys := c.vmcb.exitinfo2
    match env.find_region fault_gphys with
    | none => (guest_bad_fault c, hm)
    | some g_reg =>
      if g_reg.flags &&& VMM_REGION_REAL ≠ 0 then
        match realmode_map_memory env hm c fault_gphys (g_reg.hphys_addr + fault_gphys) with
        | (RMResult.ok, c1, hm1) =>
          ({ c1 with vmcb := { c1.vmcb with cr2 := c1.vmcb.exitinfo2 } }, hm1)
        | (RMResult.efail, c1, hm1) => (guest_bad_fault c1, hm1)
        | (RMResult.panicked, c1, hm1) => (c1, hm1)
      else
        match env.fetch_decode with
        | none => (guest_bad_fault c, hm)
        | some dinst =>
          match dinst.kind with
          | InstKind.genMov m =>
            let step1 : Option HWContext :=
              if g_reg.gphys_addr ≤ m.src_addr ∧
                 m.src_addr < g_reg.gphys_addr + g_reg.phys_size then
                match env.mmio_read fault_gphys m.op_size with
                | none => none
                | some guest_rd =>
                  if RM_REG_AX ≤ m.dst_addr ∧ m.dst_addr < RM_REG_MAX then
                    let cA := { c with g_regs := updReg c.g_regs m.dst_addr guest_rd }
                    some (if m.dst_addr = RM_REG_AX then
                            { cA with vmcb := { cA.vmcb with rax := guest_rd } }
                          else cA)
                  else none
              else some c
            match step1 with
            | none => (guest_bad_fault c, hm)
            | some cB =>
              if g_reg.gphys_addr ≤ m.dst_addr ∧
                 m.dst_addr < g_reg.gphys_addr + g_reg.phys_size then
                let wv : Option Nat :=
                  if m.src_type = OP_TYPE_IMM then some m.src_addr
                  else if RM_REG_AX ≤ m.src_addr ∧ m.src_addr < RM_REG_MAX then
                    some (if m.dst_addr = RM_REG_AX then cB.vmcb.rax
                          else cB.g_regs m.src_addr)
                  else none
                match wv with
                | none => (guest_bad_fault cB, hm)
                | some w =>
                  if env.mmio_write fault_gphys w m.op_size then
                    ({ cB with vmcb := { cB.vmcb with
                         rip := (cB.vmcb.rip + dinst.inst_size) % 2 ^ 64 } }, hm)
                  else (guest_bad_fault cB, hm)
              else
                ({ cB with vmcb := { cB.vmcb with
                     rip := (cB.vmcb.rip + dinst.inst_size) % 2 ^ 64 } }, hm)
          | _ => (guest_bad_fault c, hm)
  else (guest_bad_fault c, hm)

/-- `__handle_ioio`: port-I/O intercept.  exitinfo1 carries the port in
bits 16+, direction in bit 0, and operand size in bits 4/5; the string,
repeat, and segment fields are decoded for diagnostics only.  Input
loads the device-read result into both accumulator copies; output passes
the accumulator's low 32 bits to the device write; on success rip is set
directly from exitinfo2, on device failure the handler escalates. -/
def handle_ioio (env : Env) (c : HWContext) : HWContext :=
  let io_port := (c.vmcb.exitinfo1 >>> 16) % 2 ^ 32
  let in_inst := c.vmcb.exitinfo1 &&& 1 ≠ 0
  let op_size : Nat :=
    if c.vmcb.exitinfo1 &&& (1 <<< 4) ≠ 0 then 8
    else if c.vmcb.exitinfo1 &&& (1 <<< 5) ≠ 0 then 16
    else 32
  if in_inst then
    match env.ioread io_port (op_size / 8) with
    | none => guest_bad_fault c
    | some v =>
      let guest_rd := v % 2 ^ 32
      { c with
        g_regs := updReg c.g_regs GUEST_REGS_RAX guest_rd,
        vmcb := { c.vmcb with rax := guest_rd, rip := c.vmcb.exitinfo2 } }
  else
    let wval := c.vmcb.rax % 2 ^ 32
    if env.iowrite io_port (op_size / 8) wval then
      { c with vmcb := { c.vmcb with rip := c.vmcb.exitinfo2 } }
    else guest_bad_fault c

/-- `__handle_cpuid`: answer the leaf in rax from the per-VCPU response
tables; rip advances by the fixed 2-byte opcode length; unknown leaves
escalate. -/
def handle_cpuid (env : Env) (c : HWContext) : HWContext :=
  if c.vmcb.rax = CPUID_BASE_VENDORSTRING ∨ c.vmcb.rax = CPUID_BASE_FEATURES then
    let func := env.standard_funcs c.vmcb.rax
    { c with
      g_regs := updReg (updReg (updReg c.g_regs GUEST_REGS_RBX func.resp_ebx)
                          GUEST_REGS_RCX func.resp_ecx) GUEST_REGS_RDX func.resp_edx,
      vmcb := { c.vmcb with rax := func.resp_eax, rip := (c.vmcb.rip + 2) % 2 ^ 64 } }
  else if c.vmcb.rax = CPUID_EXTENDED_BASE ∨ c.vmcb.rax = CPUID_EXTENDED_BRANDSTRING ∨
          c.vmcb.rax = CPUID_EXTENDED_BRANDSTRINGMORE then
    let func := env.extended_funcs (c.vmcb.rax - CPUID_EXTENDED_BASE)
    { c with
      g_regs := updReg (updReg (updReg c.g_regs GUEST_REGS_RBX func.resp_ebx)
                          GUEST_REGS_RCX func.resp_ecx) GUEST_REGS_RDX func.resp_edx,
      vmcb := { c.vmcb with rax := func.resp_eax, rip := (c.vmcb.rip + 2) % 2 ^ 64 } }
  else guest_bad_fault c

/-- `handle_vcpuexit`: the top-level dispatch over the hardware exit
code, in the source's case order.  An MSR exit runs the write handler
only when exitinfo1 is 1; INTR is ignored silently; unknown codes
escalate. -/
def handle_vcpuexit (env : Env) (c : HWContext) (hm : HostMem) :
    HWContext × HostMem :=
  let ec := c.vmcb.exitcode
  if VMEXIT_CR0_READ ≤ ec ∧ ec ≤ VMEXIT_CR15_READ then (handle_crN_read env c, hm)
  else if VMEXIT_CR0_WRITE ≤ ec ∧ ec ≤ VMEXIT_CR15_WRITE then (handle_crN_write env c, hm)
  else if ec = VMEXIT_MSR then
    (if c.vmcb.exitinfo1 = 1 then handle_vm_wrmsr c else c, hm)
  else if VMEXIT_EXCEPTION_DE ≤ ec ∧ ec ≤ VMEXIT_EXCEPTION_XF then
    handle_vm_exception env c hm
  else if ec = VMEXIT_SWINT then (handle_vm_swint c, hm)
  else if ec = VMEXIT_NPF then (handle_vm_npf c, hm)
  else if ec = VMEXIT_VMMCALL then (handle_vm_vmmcall c, hm)
  else if ec = VMEXIT_IRET then (handle_vm_iret c, hm)
  else if ec = VMEXIT_POPF then (handle_popf c, hm)
  else if ec = VMEXIT_SHUTDOWN then (handle_triple_fault c, hm)
  else if ec = VMEXIT_CPUID then (handle_cpuid env c, hm)
  else if ec = VMEXIT_IOIO then (handle_ioio env c, hm)
  else if ec = VMEXIT_INTR then (c, hm)
  else (guest_bad_fault c, hm)

/-! ## Region add/remove notifications (arch_guest_helper.c) -/

/-- The x86 guest private data consulted here (`struct x86_guest_priv`). -/
structure X86GuestPriv where
  tot_ram_sz : Nat
deriving Repr, DecidableEq

/-- `arch_guest_add_region`: IO regions toggle per-port intercepts (no
counter change); regions with both the MEMORY and REAL flags add their
size to `tot_ram_sz`. -/
def arch_guest_add_region (priv : X86GuestPriv) (r : VmmRegion) : X86GuestPriv :=
  if r.flags &&& VMM_REGION_IOPORT ≠ 0 then priv
  else if r.flags &&& VMM_REGION_MEMORY ≠ 0 ∧ r.flags &&& VMM_REGION_REAL ≠ 0 then
    { priv with tot_ram_sz := priv.tot_ram_sz + r.phys_size }
  else priv

/-- `arch_guest_del_region`: IO regions toggle per-port intercepts;
regions with REAL or MEMORY flags, when the counter is nonzero and at
least the region size, ADD the region size again (`+=` in the source,
where the guard shows subtraction was intended). -/
def arch_guest_del_region (priv : X86GuestPriv) (r : VmmRegion) : X86GuestPriv :=
  if r.flags &&& VMM_REGION_IOPORT ≠ 0 then priv
  else if r.flags &&& (VMM_REGION_REAL ||| VMM_REGION_MEMORY) ≠ 0 then
    if priv.tot_ram_sz ≠ 0 ∧ priv.tot_ram_sz ≥ r.phys_size then
      { priv with tot_ram_sz := priv.tot_ram_sz + r.phys_size }
    else priv
  else priv

/-! ## Concrete fixtures used by the witnesses and counterexamples -/

/-- All-valid zeroed host memory. -/
def hm0 : HostMem := { valid := fun _ => true, mem := fun _ => 0 }

def vmcb0 : VMCB :=
  { exitcode := 0, exitinfo1 := 0, exitinfo2 := 0, rip := 0, rax := 0,
    cr0 := 0, cr2 := 0, cr3 := 0, cs_sel := 0 }

def ctx0 : HWContext :=
  { vmcb := vmcb0, g_cr0 := 0, g_cr1 := 0, g_cr2 := 0, g_cr3 := 0,
    g_regs := fun _ => 0, shadow32_pgt := fun _ => 0,
    pgmap_free_cache := 0, shadow32_pg_map := [], shadow32_pg_list := 0,
    shutdown_req := false, halted := false }

def env0 : Env :=
  { decode_assist := false, fetch_decode := none,
    ioread := fun _ _ => none, iowrite := fun _ _ _ => false,
    mmio_read := fun _ _ => none, mmio_write := fun _ _ _ => false,
    find_region := fun _ => none, va2pa := fun _ => none,
    standard_funcs := fun _ => ⟨0, 0, 0, 0⟩,
    extended_funcs := fun _ => ⟨0, 0, 0, 0⟩ }

/-- Host memory for the C3 counterexample: a present directory entry
lives at address `2^32` (where the claim's untruncated walk reads) and
the directory entry at address `0` (where the code's truncated walk
reads) has its present bit clear. -/
def c3_host_mem : HostMem :=
  { valid := fun _ => true,
    mem := fun a => if a = 2 ^ 32 then 0x1001 else if a = 0x1000 then 0x2001 else 0 }

/-- C1 fixture: guest CR0 write via software decode; old `g_cr0` has CD
and NW set; the new value (from rax) has PE and PG set. -/
def c1_ctx : HWContext :=
  { ctx0 with
    vmcb := { vmcb0 with exitcode := VMEXIT_CR0_WRITE, rax := 0x80000001,
                         cr0 := 0x60000010 },
    g_cr0 := 0x60000000 }

def c1_env : Env :=
  { env0 with
    fetch_decode :=
      some { kind := InstKind.crMov { src_reg := 0, dst_reg := RM_REG_CR0 },
             inst_size := 3 } }

/-- C4 fixture: software-decoded `mov rcx, cr3` with
`g_cr0 = 0x11 ≠ g_cr3 = 0x5000`. -/
def c4_ctx : HWContext :=
  { ctx0 with
    vmcb := { vmcb0 with exitcode := VMEXIT_CR0_READ, rip := 0x100 },
    g_cr0 := 0x11, g_cr3 := 0x5000 }

def c4_env : Env :=
  { env0 with
    fetch_decode :=
      some { kind := InstKind.crMov { src_reg := RM_REG_CR3, dst_reg := 1 },
             inst_size := 2 } }

/-- C6 fixtures: a CR1 read intercept and a CR1 write intercept. -/
def c6_read_ctx : HWContext :=
  { ctx0 with vmcb := { vmcb0 with exitcode := VMEXIT_CR0_READ + 1 } }

def c6_write_ctx : HWContext :=
  { ctx0 with vmcb := { vmcb0 with exitcode := VMEXIT_CR0_WRITE + 1 } }

/-- C5 fixtures: fresh shadow table, four free backing pages, identity
`vmm_host_va2pa`, all-valid zero host memory. -/
def c5_ctx : HWContext :=
  { ctx0 with shadow32_pg_map := [false, false, false, false],
              shadow32_pg_list := 0x100000 }

def c5_env : Env := { env0 with va2pa := fun v => some v }

/-- C7 fixture: a 4 KiB region flagged MEMORY|REAL. -/
def c7_region : VmmRegion :=
  { gphys_addr := 0x100000, hphys_addr := 0, phys_size := 0x1000,
    flags := VMM_REGION_MEMORY ||| VMM_REGION_REAL }

/-- C8 fixtures: an 8-bit `out` to port 0x3F8 with accumulator low byte
0x41 and hardware next-rip 0x77, and an 8-bit `in` from the same port. -/
def c8_out_ctx : HWContext :=
  { ctx0 with
    vmcb := { vmcb0 with exitcode := VMEXIT_IOIO,
                         exitinfo1 := (0x3f8 <<< 16) ||| (1 <<< 4),
                         exitinfo2 := 0x77, rax := 0x41 } }

def c8_in_ctx : HWContext :=
  { ctx0 with
    vmcb := { vmcb0 with exitcode := VMEXIT_IOIO,
                         exitinfo1 := (0x3f8 <<< 16) ||| (1 <<< 4) ||| 1,
                         exitinfo2 := 0x88 } }

def c8_env : Env :=
  { env0 with
    ioread := fun p s => if p = 0x3f8 ∧ s = 1 then some 0x99 else none,
    iowrite := fun p s v => decide (p = 0x3f8 ∧ s = 1 ∧ v = 0x41) }

/-- C9 fixtures: a page fault at 0x1500 inside a non-REAL MEMORY region
[0x1000, 0x2000), faulting instruction a memory-to-memory move whose
operands both lie outside the region. -/
def c9_region : VmmRegion :=
  { gphys_addr := 0x1000, hphys_addr := 0, phys_size := 0x1000,
    flags := VMM_REGION_MEMORY }

def c9_ctx : HWContext :=
  { ctx0 with
    vmcb := { vmcb0 with exitcode := VMEXIT_EXCEPTION_PF,
                         exitinfo2 := 0x1500, rip := 0x40 } }

def c9_env : Env :=
  { env0 with
    find_region := fun a => if 0x1000 ≤ a ∧ a < 0x2000 then some c9_region else none,
    fetch_decode :=
      some { kind := InstKind.genMov
               { src_type := OP_TYPE_MEM, dst_type := OP_TYPE_MEM,
                 src_addr := 0x100000, dst_addr := 0x200000, op_size := 4 },
             inst_size := 3 } }

/-- C9 witness fixture: same fault, but the move's source address lies
inside the region while the destination is still not a register. -/
def c9_env2 : Env :=
  { c9_env with
    fetch_decode :=
      some { kind := InstKind.genMov
               { src_type := OP_TYPE_MEM, dst_type := OP_TYPE_MEM,
                 src_addr := 0x1800, dst_addr := 0x200000, op_size := 4 },
             inst_size := 3 } }

/-- C10 fixture: an MSR exit whose exitinfo1 is 0 (an MSR read). -/
def c10_ctx : HWContext :=
  { ctx0 with vmcb := { vmcb0 with exitcode := VMEXIT_MSR, exitinfo1 := 0 } }

end Xvisor

namespace Xvisor

/-! ## Bit-level helper lemmas -/

theorem testBit_page_mask (i : Nat) :
    PAGE_MASK.testBit i = (decide (12 ≤ i) && decide (i < 64)) := by
  have h : PAGE_MASK = (2 ^ 52 - 1) <<< 12 := by decide
  rw [h, Nat.testBit_shiftLeft, Nat.testBit_two_pow_sub_one]
  by_cases h12 : 12 ≤ i
  · have h12d : decide (12 ≤ i) = true := decide_eq_true h12
    simp only [ge_iff_le, h12d, Bool.true_and]
    exact decide_eq_decide.mpr (by omega)
  · simp [h12]

theorem testBit_mask32 (i : Nat) :
    (0xfffff000 : Nat).testBit i = (decide (12 ≤ i) && decide (i < 32)) := by
  have h : (0xfffff000 : Nat) = (2 ^ 20 - 1) <<< 12 := by decide
  rw [h, Nat.testBit_shiftLeft, Nat.testBit_two_pow_sub_one]
  by_cases h12 : 12 ≤ i
  · have h12d : decide (12 ≤ i) = true := decide_eq_true h12
    simp only [ge_iff_le, h12d, Bool.true_and]
    exact decide_eq_decide.mpr (by omega)
  · simp [h12]

/-- For a 32-bit value the 64-bit frame mask and the 32-bit frame mask
agree. -/
theorem land_page_mask_of_lt {x : Nat} (h : x < 2 ^ 32) :
    x &&& PAGE_MASK = x &&& 0xfffff000 := by
  apply Nat.eq_of_testBit_eq
  intro i
  rw [Nat.testBit_and, Nat.testBit_and, testBit_page_mask, testBit_mask32]
  by_cases h32 : i < 32
  · have h64 : i < 64 := by omega
    simp [h32, h64]
  · have hx : x.testBit i = false :=
      Nat.testBit_lt_two_pow
        (lt_of_lt_of_le h (Nat.pow_le_pow_right (by norm_num) (by omega)))
    simp [hx]

/-- A frame-aligned value plus a sub-page offset is their bitwise or. -/
theorem frame_add_offset_eq_or (pte gpa : Nat) :
    (pte &&& PAGE_MASK) + (gpa &&& 0xfff) =
      (pte &&& PAGE_MASK) ||| (gpa &&& 0xfff) := by
  have hoff : gpa &&& 0xfff < 2 ^ 12 :=
    lt_of_le_of_lt Nat.and_le_right (by norm_num)
  have halign : pte &&& PAGE_MASK = 2 ^ 12 * ((pte &&& PAGE_MASK) >>> 12) := by
    apply Nat.eq_of_testBit_eq
    intro i
    rw [Nat.testBit_mul_pow_two, Nat.testBit_shiftRight]
    by_cases h12 : 12 ≤ i
    · have : 12 + (i - 12) = i := by omega
      simp [h12, this]
    · have : (pte &&& PAGE_MASK).testBit i = false := by
        rw [Nat.testBit_and, testBit_page_mask]
        have : ¬ (12 ≤ i) := h12
        simp [this]
      simp [h12, this]
  rw [halign, Nat.mul_add_lt_is_or hoff]

/-! ## Claim C2 -/

/-- Claim C2: for every vaddr, if the shadowed g_cr0 has both the
paging-enable and protection-enable bits clear, `gva_to_gpa` succeeds
with `(cs.sel << 4) | vaddr`; with paging clear and protection set it
succeeds with `vaddr`; with paging set it fails. -/
theorem gva_to_gpa_characterization (c : HWContext) (vaddr : Nat) :
    (c.g_cr0 &&& X86_CR0_PG = 0 → c.g_cr0 &&& X86_CR0_PE = 0 →
      gva_to_gpa c vaddr = some ((c.vmcb.cs_sel <<< 4) ||| vaddr)) ∧
    (c.g_cr0 &&& X86_CR0_PG = 0 → c.g_cr0 &&& X86_CR0_PE ≠ 0 →
      gva_to_gpa c vaddr = some vaddr) ∧
    (c.g_cr0 &&& X86_CR0_PG ≠ 0 → gva_to_gpa c vaddr = none) := by
  refine ⟨fun hpg hpe => ?_, fun hpg hpe => ?_, fun hpg => ?_⟩
  · simp [gva_to_gpa, hpg, hpe]
  · simp [gva_to_gpa, hpg, hpe]
  · simp [gva_to_gpa, hpg]

/-- Concrete instance of C2 at real-mode state (g_cr0 = 0,
cs.sel = 0x1234, vaddr = 0x56): result is 0x12340 ||| 0x56. -/
theorem gva_to_gpa_characterization_witness :
    ((0 : Nat) &&& X86_CR0_PG = 0) ∧ ((0 : Nat) &&& X86_CR0_PE = 0) ∧
    gva_to_gpa
      { vmcb := { exitcode := 0, exitinfo1 := 0, exitinfo2 := 0, rip := 0,
                  rax := 0, cr0 := 0, cr2 := 0, cr3 := 0, cs_sel := 0x1234 },
        g_cr0 := 0, g_cr1 := 0, g_cr2 := 0, g_cr3 := 0,
        g_regs := fun _ => 0, shadow32_pgt := fun _ => 0,
        pgmap_free_cache := 0, shadow32_pg_map := [], shadow32_pg_list := 0,
        shutdown_req := false, halted := false } 0x56 =
      some ((0x1234 <<< 4) ||| 0x56) :=
  ⟨by decide, by decide,
   (gva_to_gpa_characterization _ 0x56).1 (by decide) (by decide)⟩

/-! ## Claim C3 -/

/-- Claim C3 as stated is false: with `cr3 = 2^32` and `gpa = 0` the
claim's walk (page-directory entry read at `(cr3 & ~0xfff) + 4*dir_index`
with the full cr3) succeeds with `0x2000`, but `gpa_to_hpa` truncates
cr3 to its low 32 bits (`u32 tcr3 = (u32)cr3`), reads the directory
entry at address 0, finds the present bit clear, and fails. -/
theorem gpa_to_hpa_claim_counterexample :
    gpa_to_hpa_spec c3_host_mem (2 ^ 32) 0 = some 0x2000 ∧
    gpa_to_hpa c3_host_mem (2 ^ 32) 0 = none := by
  constructor <;> decide

/-- Claim C3 amended (the truncation `u32 tcr3 = (u32)cr3` is applied to
the page-table base): provided every host-memory read returns a 32-bit
value (the primitive reads exactly 4 bytes into a u32), `gpa_to_hpa`
computes exactly the claim's two-level walk with `cr3` replaced by its
low 32 bits — directory entry at `((cr3 mod 2^32) & ~0xfff) + 4*dir_index`,
failure on short read or clear present bit at either level, table entry
at `(pde & ~0xfff) + 4*table_index`, and result
`(pte & page_mask) | (gpa & ~page_mask)`. -/
theorem gpa_to_hpa_eq_spec (hm : HostMem) (cr3 gpa : Nat)
    (hval : ∀ a v, hostRead hm a = some v → v < 2 ^ 32) :
    gpa_to_hpa hm cr3 gpa = gpa_to_hpa_spec hm (cr3 % 2 ^ 32) gpa := by
  have hc : cr3 % 2 ^ 32 &&& PAGE_MASK = cr3 % 2 ^ 32 &&& 0xfffff000 :=
    land_page_mask_of_lt (Nat.mod_lt _ (by norm_num))
  simp only [gpa_to_hpa, gpa_to_hpa_spec, hc]
  cases h1 : hostRead hm ((cr3 % 2 ^ 32 &&& 0xfffff000) + 4 * ((gpa >>> 22) &&& 0x3ff)) with
  | none => rfl
  | some pde0 =>
    have hpde : pde0 % 2 ^ 32 = pde0 := Nat.mod_eq_of_lt (hval _ _ h1)
    have hc2 : pde0 &&& PAGE_MASK = pde0 &&& 0xfffff000 :=
      land_page_mask_of_lt (hval _ _ h1)
    simp only [hpde, hc2]
    by_cases hp : pde0 &&& 0x1 = 0
    · simp [hp]
    · simp only [hp, if_neg hp]
      cases h2 : hostRead hm ((pde0 &&& 0xfffff000) + 4 * ((gpa >>> 12) &&& 0x3ff)) with
      | none => rfl
      | some pte0 =>
        have hpte : pte0 % 2 ^ 32 = pte0 := Nat.mod_eq_of_lt (hval _ _ h2)
        simp only [hpte]
        by_cases ht : pte0 &&& 0x1 = 0
        · simp [ht]
        · simp only [ht, if_neg ht, frame_add_offset_eq_or]

/-- Concrete instance of the amended C3: on `c3_host_mem` with
`cr3 = 0x0` and `gpa = 0x1000`, both walks agree. -/
theorem gpa_to_hpa_eq_spec_witness :
    (∀ a v, hostRead c3_host_mem a = some v → v < 2 ^ 32) ∧
    gpa_to_hpa c3_host_mem 0 0x1000 = gpa_to_hpa_spec c3_host_mem (0 % 2 ^ 32) 0x1000 := by
  have hval : ∀ a v, hostRead c3_host_mem a = some v → v < 2 ^ 32 := by
    intro a v h
    simp only [hostRead, c3_host_mem, if_true] at h
    cases h
    split
    · norm_num
    · split
      · norm_num
      · norm_num
  exact ⟨hval, gpa_to_hpa_eq_spec c3_host_mem 0 0x1000 hval⟩

/-! ## Bit lemmas for the CR0 hardware update -/

theorem land_two_pow_ne_zero_iff (x k : Nat) : x &&& 2 ^ k ≠ 0 ↔ x.testBit k = true := by
  rw [Nat.and_two_pow]
  cases h : x.testBit k
  · simp
  · simp [(Nat.two_pow_pos k).ne']

theorem or_two_pow_testBit_ne {x k i : Nat} (h : i ≠ k) :
    (x ||| 2 ^ k).testBit i = x.testBit i := by
  rw [Nat.testBit_or, Nat.testBit_two_pow]
  have hk : k ≠ i := fun hh => h hh.symm
  simp [hk]

theorem and_not_two_pow_testBit_ne {x k i : Nat} (h : i ≠ k) (hi : i < 64) :
    (x &&& ((2 ^ 64 - 1) ^^^ 2 ^ k)).testBit i = x.testBit i := by
  rw [Nat.testBit_and, Nat.testBit_xor, Nat.testBit_two_pow_sub_one, Nat.testBit_two_pow]
  have hk : k ≠ i := fun hh => h hh.symm
  simp [hk, hi]

theorem and_not_two_pow_testBit_high {x k i : Nat} (hk : k < 64) (hi : ¬ i < 64) :
    (x &&& ((2 ^ 64 - 1) ^^^ 2 ^ k)).testBit i = false := by
  rw [Nat.testBit_and, Nat.testBit_xor, Nat.testBit_two_pow_sub_one, Nat.testBit_two_pow]
  have hki : k ≠ i := by omega
  simp [hi, hki]

theorem cr0_hw_update_other (cr0 bs bc i : Nat) (hlt : cr0 < 2 ^ 64)
    (h0 : i ≠ 0) (h29 : i ≠ 29) (h30 : i ≠ 30) (h31 : i ≠ 31) :
    (cr0_hw_update cr0 bs bc).testBit i = cr0.testBit i := by
  simp only [cr0_hw_update]
  by_cases hi : i < 64
  · have hpe : ∀ x : Nat, (x ||| X86_CR0_PE).testBit i = x.testBit i :=
      fun x => or_two_pow_testBit_ne h0
    have hpg : ∀ x : Nat, (x ||| X86_CR0_PG).testBit i = x.testBit i :=
      fun x => or_two_pow_testBit_ne h31
    have hcd : ∀ x : Nat, (x &&& ((2 ^ 64 - 1) ^^^ X86_CR0_CD)).testBit i = x.testBit i :=
      fun x => and_not_two_pow_testBit_ne h30 hi
    have hnw : ∀ x : Nat, (x &&& ((2 ^ 64 - 1) ^^^ X86_CR0_NW)).testBit i = x.testBit i :=
      fun x => and_not_two_pow_testBit_ne h29 hi
    split <;> split <;> split <;> split <;> simp only [hpe, hpg, hcd, hnw]
  · have hx : cr0.testBit i = false :=
      Nat.testBit_lt_two_pow
        (lt_of_lt_of_le hlt (Nat.pow_le_pow_right (by norm_num) (by omega)))
    have hpe : ∀ x : Nat, (x ||| X86_CR0_PE).testBit i = x.testBit i :=
      fun x => or_two_pow_testBit_ne h0
    have hpg : ∀ x : Nat, (x ||| X86_CR0_PG).testBit i = x.testBit i :=
      fun x => or_two_pow_testBit_ne h31
    have hcd : ∀ x : Nat, (x &&& ((2 ^ 64 - 1) ^^^ X86_CR0_CD)).testBit i = false :=
      fun x => and_not_two_pow_testBit_high (by norm_num) hi
    have hnw : ∀ x : Nat, (x &&& ((2 ^ 64 - 1) ^^^ X86_CR0_NW)).testBit i = false :=
      fun x => and_not_two_pow_testBit_high (by norm_num) hi
    split <;> split <;> split <;> split <;> simp only [hpe, hpg, hcd, hnw, hx]

theorem cr0_hw_update_pe (cr0 bs bc : Nat) (h : bs.testBit 0 = true) :
    (cr0_hw_update cr0 bs bc).testBit 0 = true := by
  have hc : bs &&& X86_CR0_PE ≠ 0 := (land_two_pow_ne_zero_iff bs 0).mpr h
  simp only [cr0_hw_update, if_pos hc]
  have hset : (cr0 ||| X86_CR0_PE).testBit 0 = true := by
    rw [Nat.testBit_or, show X86_CR0_PE.testBit 0 = true from by decide, Bool.or_true]
  have hpg : ∀ x : Nat, (x ||| X86_CR0_PG).testBit 0 = x.testBit 0 :=
    fun x => or_two_pow_testBit_ne (by omega)
  have hcd : ∀ x : Nat, (x &&& ((2 ^ 64 - 1) ^^^ X86_CR0_CD)).testBit 0 = x.testBit 0 :=
    fun x => and_not_two_pow_testBit_ne (by omega) (by omega)
  have hnw : ∀ x : Nat, (x &&& ((2 ^ 64 - 1) ^^^ X86_CR0_NW)).testBit 0 = x.testBit 0 :=
    fun x => and_not_two_pow_testBit_ne (by omega) (by omega)
  split <;> split <;> split <;> simp only [hpg, hcd, hnw, hset]

theorem cr0_hw_update_pg (cr0 bs bc : Nat) (h : bs.testBit 31 = true) :
    (cr0_hw_update cr0 bs bc).testBit 31 = true := by
  have hc : bs &&& X86_CR0_PG ≠ 0 := (land_two_pow_ne_zero_iff bs 31).mpr h
  simp only [cr0_hw_update, if_pos hc]
  have hset : ∀ x : Nat, (x ||| X86_CR0_PG).testBit 31 = true := by
    intro x
    rw [Nat.testBit_or, show X86_CR0_PG.testBit 31 = true from by decide, Bool.or_true]
  have hcd : ∀ x : Nat, (x &&& ((2 ^ 64 - 1) ^^^ X86_CR0_CD)).testBit 31 = x.testBit 31 :=
    fun x => and_not_two_pow_testBit_ne (by omega) (by omega)
  have hnw : ∀ x : Nat, (x &&& ((2 ^ 64 - 1) ^^^ X86_CR0_NW)).testBit 31 = x.testBit 31 :=
    fun x => and_not_two_pow_testBit_ne (by omega) (by omega)
  split <;> split <;> split <;> simp only [hcd, hnw, hset]

theorem cr0_hw_update_cd (cr0 bs bc : Nat) (h : bc.testBit 30 = true) :
    (cr0_hw_update cr0 bs bc).testBit 30 = false := by
  have hc : bc &&& X86_CR0_CD ≠ 0 := (land_two_pow_ne_zero_iff bc 30).mpr h
  simp only [cr0_hw_update, if_pos hc]
  have hbit30 : ((2 ^ 64 - 1) ^^^ X86_CR0_CD).testBit 30 = false := by decide
  have hclr : ∀ x : Nat, (x &&& ((2 ^ 64 - 1) ^^^ X86_CR0_CD)).testBit 30 = false := by
    intro x
    rw [Nat.testBit_and, hbit30, Bool.and_false]
  have hnw : ∀ x : Nat, (x &&& ((2 ^ 64 - 1) ^^^ X86_CR0_NW)).testBit 30 = x.testBit 30 :=
    fun x => and_not_two_pow_testBit_ne (by omega) (by omega)
  split <;> split <;> split <;> simp only [hclr, hnw]

theorem cr0_hw_update_nw (cr0 bs bc : Nat) (h : bc.testBit 29 = true) :
    (cr0_hw_update cr0 bs bc).testBit 29 = false := by
  have hc : bc &&& X86_CR0_NW ≠ 0 := (land_two_pow_ne_zero_iff bc 29).mpr h
  simp only [cr0_hw_update, if_pos hc]
  have hbit29 : ((2 ^ 64 - 1) ^^^ X86_CR0_NW).testBit 29 = false := by decide
  have hclr : ∀ x : Nat, (x &&& ((2 ^ 64 - 1) ^^^ X86_CR0_NW)).testBit 29 = false := by
    intro x
    rw [Nat.testBit_and, hbit29, Bool.and_false]
  exact hclr _

theorem bits_set_testBit (g v k : Nat) (hk : k < 32) :
    ((((2 ^ 64 - 1) ^^^ g) &&& v) % 2 ^ 32).testBit k = (!(g.testBit k) && v.testBit k) := by
  rw [Nat.testBit_mod_two_pow, Nat.testBit_and, Nat.testBit_xor, Nat.testBit_two_pow_sub_one]
  have h64 : k < 64 := by omega
  simp [hk, h64]

theorem bits_clrd_testBit (g v k : Nat) (hk : k < 32) :
    ((g &&& ((2 ^ 64 - 1) ^^^ v)) % 2 ^ 32).testBit k = (g.testBit k && !(v.testBit k)) := by
  rw [Nat.testBit_mod_two_pow, Nat.testBit_and, Nat.testBit_xor, Nat.testBit_two_pow_sub_one]
  have h64 : k < 64 := by omega
  simp [hk, h64]

/-! ## Claim C1 -/

/-- Claim C1: for every guest CR0 write handled via software decode,
with old value `g_cr0` and new value `v` from the decoded source general
register (hardware rax when the source index is 0): afterwards `g_cr0`
equals `v`; a 0→1 PE transition sets hardware PE; a 0→1 PG transition
sets hardware PG; a 1→0 CD transition clears hardware CD; a 1→0 NW
transition clears hardware NW; every other hardware CR0 bit is
unchanged; and rip advances by the decoded instruction length. -/
theorem cr0_write_software_decode (env : Env) (c : HWContext)
    (m : CrnMovInst) (sz : Nat) (v : Nat)
    (hec : c.vmcb.exitcode = VMEXIT_CR0_WRITE)
    (hda : env.decode_assist = false)
    (hfd : env.fetch_decode = some { kind := InstKind.crMov m, inst_size := sz })
    (hdst : m.dst_reg = RM_REG_CR0)
    (hv : v = if m.src_reg = 0 then c.vmcb.rax else c.g_regs m.src_reg)
    (hcr0lt : c.vmcb.cr0 < 2 ^ 64)
    (hrip : c.vmcb.rip + sz < 2 ^ 64) :
    (handle_crN_write env c).g_cr0 = v ∧
    (c.g_cr0.testBit 0 = false → v.testBit 0 = true →
      (handle_crN_write env c).vmcb.cr0.testBit 0 = true) ∧
    (c.g_cr0.testBit 31 = false → v.testBit 31 = true →
      (handle_crN_write env c).vmcb.cr0.testBit 31 = true) ∧
    (c.g_cr0.testBit 30 = true → v.testBit 30 = false →
      (handle_crN_write env c).vmcb.cr0.testBit 30 = false) ∧
    (c.g_cr0.testBit 29 = true → v.testBit 29 = false →
      (handle_crN_write env c).vmcb.cr0.testBit 29 = false) ∧
    (∀ i, i ≠ 0 → i ≠ 29 → i ≠ 30 → i ≠ 31 →
      (handle_crN_write env c).vmcb.cr0.testBit i = c.vmcb.cr0.testBit i) ∧
    (handle_crN_write env c).vmcb.rip = c.vmcb.rip + sz := by
  have hr : handle_crN_write env c =
      { c with
        g_cr0 := v,
        vmcb := { c.vmcb with
                    cr0 := cr0_hw_update c.vmcb.cr0
                             ((((2 ^ 64 - 1) ^^^ c.g_cr0) &&& v) % 2 ^ 32)
                             ((c.g_cr0 &&& ((2 ^ 64 - 1) ^^^ v)) % 2 ^ 32),
                    rip := (c.vmcb.rip + sz) % 2 ^ 64 } } := by
    simp [handle_crN_write, hec, hda, hfd, hdst, hv]
  rw [hr]
  refine ⟨rfl, ?_, ?_, ?_, ?_, ?_, ?_⟩
  · intro hg hvb
    exact cr0_hw_update_pe _ _ _ (by rw [bits_set_testBit _ _ 0 (by norm_num), hg, hvb]; rfl)
  · intro hg hvb
    exact cr0_hw_update_pg _ _ _ (by rw [bits_set_testBit _ _ 31 (by norm_num), hg, hvb]; rfl)
  · intro hg hvb
    exact cr0_hw_update_cd _ _ _ (by rw [bits_clrd_testBit _ _ 30 (by norm_num), hg, hvb]; rfl)
  · intro hg hvb
    exact cr0_hw_update_nw _ _ _ (by rw [bits_clrd_testBit _ _ 29 (by norm_num), hg, hvb]; rfl)
  · intro i h0 h29 h30 h31
    exact cr0_hw_update_other _ _ _ i hcr0lt h0 h29 h30 h31
  · exact Nat.mod_eq_of_lt hrip

/-- Concrete instance of C1: `g_cr0 = CD|NW`, new value `PG|PE` written
from rax; all four transitions fire, bit 4 of hardware CR0 is untouched,
rip advances by 3. -/
theorem cr0_write_software_decode_witness :
    (handle_crN_write c1_env c1_ctx).g_cr0 = 0x80000001 ∧
    (handle_crN_write c1_env c1_ctx).vmcb.cr0.testBit 0 = true ∧
    (handle_crN_write c1_env c1_ctx).vmcb.cr0.testBit 31 = true ∧
    (handle_crN_write c1_env c1_ctx).vmcb.cr0.testBit 30 = false ∧
    (handle_crN_write c1_env c1_ctx).vmcb.cr0.testBit 29 = false ∧
    (handle_crN_write c1_env c1_ctx).vmcb.cr0.testBit 4 = c1_ctx.vmcb.cr0.testBit 4 ∧
    (handle_crN_write c1_env c1_ctx).vmcb.rip = c1_ctx.vmcb.rip + 3 := by
  have h := cr0_write_software_decode c1_env c1_ctx
      { src_reg := 0, dst_reg := RM_REG_CR0 } 3 0x80000001
      rfl rfl rfl rfl (by decide) (by decide) (by decide)
  exact ⟨h.1, h.2.1 (by decide) (by decide), h.2.2.1 (by decide) (by decide),
         h.2.2.2.1 (by decide) (by decide), h.2.2.2.2.1 (by decide) (by decide),
         h.2.2.2.2.2.1 4 (by decide) (by decide) (by decide) (by decide),
         h.2.2.2.2.2.2⟩

/-! ## Claim C4 -/

/-- Claim C4 states the intended behavior, but the code has a slip: for
a software-decoded move from CR3 into general register 1, line 326
stores `g_cr0` (0x11) — not the computed `rvalue = g_cr3` (0x5000) —
into the destination register, while rip still advances.  The `rvalue`
computed from the named CRn is used only for the hardware-rax copy when
the destination index is 0, contradicting the evident intent of the
surrounding code. -/
theorem crN_read_stores_g_cr0_not_crn :
    (handle_crN_read c4_env c4_ctx).g_regs 1 = 0x11 ∧
    c4_ctx.g_cr3 = 0x5000 ∧
    (0x11 : Nat) ≠ 0x5000 ∧
    (handle_crN_read c4_env c4_ctx).vmcb.rip = 0x102 ∧
    (handle_crN_read c4_env c4_ctx).shutdown_req = false := by
  refine ⟨by decide, rfl, by decide, by decide, by decide⟩

/-! ## Claim C6 -/

/-- Claim C6 as stated is false: a CR1 read intercept (register index 1,
neither 0 nor 3) does NOT invoke the emergency-shutdown hook — the
handler's default arm only logs and returns with the state unchanged. -/
theorem crN_unknown_target_counterexample :
    handle_crN_read env0 c6_read_ctx = c6_read_ctx ∧
    c6_read_ctx.shutdown_req = false := by
  exact ⟨rfl, rfl⟩

/-- Claim C6 amended: for every control-register read or write exit
whose register index is neither 0 nor 3, the handler logs the unhandled
access and returns with all guest-visible state unchanged; the
emergency-shutdown hook is NOT invoked (escalation happens only for an
unknown target inside a decoded instruction). -/
theorem crN_unknown_target_ignored (env env2 : Env) (c c2 : HWContext)
    (hr1 : VMEXIT_CR0_READ ≤ c.vmcb.exitcode)
    (hr2 : c.vmcb.exitcode ≤ VMEXIT_CR15_READ)
    (hr0 : c.vmcb.exitcode ≠ VMEXIT_CR0_READ)
    (hr3 : c.vmcb.exitcode ≠ VMEXIT_CR0_READ + 3)
    (hw1 : VMEXIT_CR0_WRITE ≤ c2.vmcb.exitcode)
    (hw2 : c2.vmcb.exitcode ≤ VMEXIT_CR15_WRITE)
    (hw0 : c2.vmcb.exitcode ≠ VMEXIT_CR0_WRITE)
    (hw3 : c2.vmcb.exitcode ≠ VMEXIT_CR0_WRITE + 3) :
    handle_crN_read env c = c ∧ handle_crN_write env2 c2 = c2 := by
  constructor
  · have h1 : ¬ ((c.vmcb.exitcode : Int) - (VMEXIT_CR0_READ : Int) = 0) := by
      simp only [VMEXIT_CR0_READ] at hr0 ⊢
      omega
    have h3 : ¬ ((c.vmcb.exitcode : Int) - (VMEXIT_CR0_READ : Int) = 3) := by
      simp only [VMEXIT_CR0_READ] at hr3 ⊢
      omega
    simp only [handle_crN_read, if_neg h1, if_neg h3]
  · have h1 : ¬ ((c2.vmcb.exitcode : Int) - (VMEXIT_CR0_WRITE : Int) = 0) := by
      simp only [VMEXIT_CR0_WRITE] at hw0 ⊢
      omega
    have h3 : ¬ ((c2.vmcb.exitcode : Int) - (VMEXIT_CR0_WRITE : Int) = 3) := by
      simp only [VMEXIT_CR0_WRITE] at hw3 ⊢
      omega
    simp only [handle_crN_write, if_neg h1, if_neg h3]

/-- Concrete instance of the amended C6: the CR1 read and CR1 write
(exit codes 0x1 and 0x11) leave the state unchanged. -/
theorem crN_unknown_target_ignored_witness :
    (VMEXIT_CR0_READ ≤ c6_read_ctx.vmcb.exitcode ∧
     c6_read_ctx.vmcb.exitcode ≤ VMEXIT_CR15_READ ∧
     c6_read_ctx.vmcb.exitcode ≠ VMEXIT_CR0_READ ∧
     c6_read_ctx.vmcb.exitcode ≠ VMEXIT_CR0_READ + 3 ∧
     VMEXIT_CR0_WRITE ≤ c6_write_ctx.vmcb.exitcode ∧
     c6_write_ctx.vmcb.exitcode ≤ VMEXIT_CR15_WRITE ∧
     c6_write_ctx.vmcb.exitcode ≠ VMEXIT_CR0_WRITE ∧
     c6_write_ctx.vmcb.exitcode ≠ VMEXIT_CR0_WRITE + 3) ∧
    handle_crN_read env0 c6_read_ctx = c6_read_ctx ∧
    handle_crN_write env0 c6_write_ctx = c6_write_ctx := by
  have h := crN_unknown_target_ignored env0 env0 c6_read_ctx c6_write_ctx
      (by decide) (by decide) (by decide) (by decide)
      (by decide) (by decide) (by decide) (by decide)
  exact ⟨⟨by decide, by decide, by decide, by decide,
          by decide, by decide, by decide, by decide⟩, h.1, h.2⟩

/-! ## Claim C5 -/

theorem pg_present_mod (x : Nat) : pg_present (x % 4294967296) = pg_present x := by
  simp only [pg_present]
  rw [show (4294967296 : Nat) = 2 ^ 32 from by norm_num, Nat.testBit_mod_two_pow]
  norm_num

theorem pg_present_set (p f : Nat) :
    pg_present (pg_set_paddr (pg_set_present_rw p) f) = true := by
  have h3 : (3 : Nat).testBit 0 = true := by decide
  have hfff : (0xfff : Nat).testBit 0 = true := by decide
  simp [pg_present, pg_set_paddr, pg_set_present_rw, Nat.testBit_or, Nat.testBit_and, h3, hfff]

theorem pg_rw_set (p f : Nat) :
    pg_rw (pg_set_paddr (pg_set_present_rw p) f) = true := by
  have h3 : (3 : Nat).testBit 1 = true := by decide
  have hfff : (0xfff : Nat).testBit 1 = true := by decide
  simp [pg_rw, pg_set_paddr, pg_set_present_rw, Nat.testBit_or, Nat.testBit_and, h3, hfff]

theorem pg_paddr_set (p f : Nat) :
    pg_paddr (pg_set_paddr (pg_set_present_rw p) f) = f % 2 ^ 20 := by
  unfold pg_paddr pg_set_paddr pg_set_present_rw
  have hlow : ((p ||| 3) &&& 0xfff) < 2 ^ 12 := lt_of_le_of_lt Nat.and_le_right (by norm_num)
  have hor : (f % 2 ^ 20) <<< 12 ||| ((p ||| 3) &&& 0xfff)
           = 2 ^ 12 * (f % 2 ^ 20) + ((p ||| 3) &&& 0xfff) := by
    rw [Nat.shiftLeft_eq, Nat.mul_comm]
    exact (Nat.mul_add_lt_is_or hlow _).symm
  rw [hor, Nat.shiftRight_eq_div_pow, Nat.mul_add_div (by norm_num), Nat.div_eq_of_lt hlow]
  simp [Nat.mod_mod_of_dvd]

/-- Claim C5: from a state whose page-directory entry for `vaddr` is
absent, with an empty free cache, a free bitmap index, a resolvable
backing page, and a non-present page-table entry in host memory, the
first `realmode_map_memory` call succeeds and installs a present,
writable page-table entry with physical frame `paddr >> PAGE_SHIFT`; a
second call with the same `vaddr` fails because the entry is now
present; and a second call with a distinct `vaddr2` sharing the same
page-directory index leaves the context (bitmap, free cache, directory)
completely unchanged — directory-entry allocation is idempotent. -/
theorem realmode_map_memory_no_double_map (env : Env) (hm : HostMem) (c : HWContext)
    (vaddr paddr vaddr2 paddr2 idx tpaddr pa : Nat)
    (hfresh : pg_present (c.shadow32_pgt ((vaddr >>> 22) &&& 0x3ff)) = false)
    (hcache : c.pgmap_free_cache = 0)
    (hfind : findFreeIdx c.shadow32_pg_map = some idx)
    (hva : env.va2pa (c.shadow32_pg_list + idx * PAGE_SIZE) = some tpaddr)
    (hpa : pa = (((tpaddr >>> PAGE_SHIFT) % 2 ^ 20) <<< PAGE_SHIFT)
              + 4 * ((vaddr >>> 12) &&& 0x3ff))
    (hvalid : hm.valid pa = true)
    (hpte : pg_present (hm.mem pa) = false)
    (hpaddr : paddr < 2 ^ 32)
    (hv2 : vaddr2 ≠ vaddr)
    (hsamepd : (vaddr2 >>> 22) &&& 0x3ff = (vaddr >>> 22) &&& 0x3ff) :
    (realmode_map_memory env hm c vaddr paddr).1 = RMResult.ok ∧
    pg_present ((realmode_map_memory env hm c vaddr paddr).2.2.mem pa) = true ∧
    pg_rw ((realmode_map_memory env hm c vaddr paddr).2.2.mem pa) = true ∧
    pg_paddr ((realmode_map_memory env hm c vaddr paddr).2.2.mem pa) = paddr >>> PAGE_SHIFT ∧
    (realmode_map_memory env
       (realmode_map_memory env hm c vaddr paddr).2.2
       (realmode_map_memory env hm c vaddr paddr).2.1 vaddr paddr).1 = RMResult.efail ∧
    (realmode_map_memory env
       (realmode_map_memory env hm c vaddr paddr).2.2
       (realmode_map_memory env hm c vaddr paddr).2.1 vaddr2 paddr2).2.1 =
      (realmode_map_memory env hm c vaddr paddr).2.1 := by
  have hpa2 : pa = pg_paddr (pg_set_paddr
        (pg_set_present_rw (c.shadow32_pgt ((vaddr >>> 22) &&& 0x3ff)))
        (tpaddr >>> PAGE_SHIFT)) <<< PAGE_SHIFT + 4 * ((vaddr >>> 12) &&& 0x3ff) := by
    rw [pg_paddr_set]
    exact hpa
  have h1 : realmode_map_memory env hm c vaddr paddr =
      (RMResult.ok,
       { c with
         pgmap_free_cache := idx + 1,
         shadow32_pg_map := c.shadow32_pg_map.set idx true,
         shadow32_pgt :=
           updReg (updReg c.shadow32_pgt ((vaddr >>> 22) &&& 0x3ff)
                     (pg_set_present_rw (c.shadow32_pgt ((vaddr >>> 22) &&& 0x3ff))))
             ((vaddr >>> 22) &&& 0x3ff)
             (pg_set_paddr (pg_set_present_rw (c.shadow32_pgt ((vaddr >>> 22) &&& 0x3ff)))
                (tpaddr >>> PAGE_SHIFT)) },
       { hm with mem := fun x => if x = pa then
           pg_set_paddr (pg_set_present_rw (hm.mem pa % 2 ^ 32)) (paddr >>> PAGE_SHIFT)
         else hm.mem x }) := by
    simp [realmode_map_memory, hostRead, hostWrite, hfresh, hcache, hfind, hva, hvalid,
          updReg, pg_present_mod, hpte, ← hpa2]
  rw [h1]
  refine ⟨rfl, ?_, ?_, ?_, ?_, ?_⟩
  · simp [pg_present_set]
  · simp [pg_rw_set]
  · have hlt : paddr >>> PAGE_SHIFT < 2 ^ 20 := by
      rw [Nat.shiftRight_eq_div_pow]
      have h2 : (0 : Nat) < 2 ^ PAGE_SHIFT := Nat.two_pow_pos _
      rw [Nat.div_lt_iff_lt_mul h2]
      calc paddr < 2 ^ 32 := hpaddr
        _ ≤ 2 ^ 20 * 2 ^ PAGE_SHIFT := by norm_num [PAGE_SHIFT]
    have hlt2 : paddr >>> PAGE_SHIFT < 1048576 := by
      calc paddr >>> PAGE_SHIFT < 2 ^ 20 := hlt
        _ = 1048576 := by norm_num
    simp [pg_paddr_set, Nat.mod_eq_of_lt hlt2]
  · simp [realmode_map_memory, hostRead, updReg, pg_present_set, pg_present_mod,
          ← hpa2, hvalid]
  · simp only [realmode_map_memory, hsamepd, updReg]
    simp [pg_present_set]
    split
    · rfl
    · split
      · rfl
      · split
        · rfl
        · rfl

/-- Concrete instance of C5: mapping `vaddr = 0x1000` to `paddr = 0x2000`
on a fresh shadow table installs the entry at page-table word 0x100004;
remapping 0x1000 fails; mapping 0x2000 (same directory index) changes no
context state. -/
theorem realmode_map_memory_no_double_map_witness :
    (realmode_map_memory c5_env hm0 c5_ctx 0x1000 0x2000).1 = RMResult.ok ∧
    pg_present ((realmode_map_memory c5_env hm0 c5_ctx 0x1000 0x2000).2.2.mem 0x100004) = true ∧
    pg_rw ((realmode_map_memory c5_env hm0 c5_ctx 0x1000 0x2000).2.2.mem 0x100004) = true ∧
    pg_paddr ((realmode_map_memory c5_env hm0 c5_ctx 0x1000 0x2000).2.2.mem 0x100004) =
      0x2000 >>> PAGE_SHIFT ∧
    (realmode_map_memory c5_env
       (realmode_map_memory c5_env hm0 c5_ctx 0x1000 0x2000).2.2
       (realmode_map_memory c5_env hm0 c5_ctx 0x1000 0x2000).2.1 0x1000 0x2000).1 =
      RMResult.efail ∧
    (realmode_map_memory c5_env
       (realmode_map_memory c5_env hm0 c5_ctx 0x1000 0x2000).2.2
       (realmode_map_memory c5_env hm0 c5_ctx 0x1000 0x2000).2.1 0x2000 0x3000).2.1 =
      (realmode_map_memory c5_env hm0 c5_ctx 0x1000 0x2000).2.1 :=
  realmode_map_memory_no_double_map c5_env hm0 c5_ctx 0x1000 0x2000 0x2000 0x3000 0
    0x100000 0x100004 (by decide) rfl (by decide) rfl (by decide) rfl (by decide)
    (by decide) (by decide) (by decide)

/-! ## Claim C7 -/

/-- Claim C7 states the intended algebra, but the code has a slip: the
region-added notification for a MEMORY|REAL region adds the region size
to `tot_ram_sz` (first conjunct, correct), while the region-removed
notification ALSO adds it (`+=` at arch_guest_helper.c line 143, under a
guard `tot_ram_sz >= phys_size` that only makes sense for subtraction),
so add-then-remove of a 0x1000-byte region leaves the counter at 0x2000
instead of restoring 0. -/
theorem region_add_del_does_not_restore_counter :
    (arch_guest_add_region { tot_ram_sz := 0 } c7_region).tot_ram_sz = 0x1000 ∧
    (arch_guest_del_region (arch_guest_add_region { tot_ram_sz := 0 } c7_region)
        c7_region).tot_ram_sz = 0x2000 := by
  constructor <;> decide

/-! ## Claim C8 -/

/-- Claim C8: for every port-I/O exit, with the port from exitinfo1 bits
16+ (as a u32) and the size decoded from the 8/16/32-bit flags: input
calls the device-emulation read and loads the result into both the
general-register accumulator copy and hardware rax; output calls the
device-emulation write with the accumulator's low 32 bits; on success
rip is set directly from exitinfo2; on a failed emulation call the
handler escalates and rip is not updated. -/
theorem ioio_characterization (env : Env) (c : HWContext) (port sz : Nat)
    (hport : port = (c.vmcb.exitinfo1 >>> 16) % 2 ^ 32)
    (hsz : sz = (if c.vmcb.exitinfo1 &&& (1 <<< 4) ≠ 0 then 8
                 else if c.vmcb.exitinfo1 &&& (1 <<< 5) ≠ 0 then 16 else 32) / 8) :
    (c.vmcb.exitinfo1 &&& 1 ≠ 0 →
      (∀ v, env.ioread port sz = some v →
        handle_ioio env c =
          { c with g_regs := updReg c.g_regs GUEST_REGS_RAX (v % 2 ^ 32),
                   vmcb := { c.vmcb with rax := v % 2 ^ 32,
                                         rip := c.vmcb.exitinfo2 } }) ∧
      (env.ioread port sz = none →
        handle_ioio env c = { c with shutdown_req := true })) ∧
    (c.vmcb.exitinfo1 &&& 1 = 0 →
      (env.iowrite port sz (c.vmcb.rax % 2 ^ 32) = true →
        handle_ioio env c =
          { c with vmcb := { c.vmcb with rip := c.vmcb.exitinfo2 } }) ∧
      (env.iowrite port sz (c.vmcb.rax % 2 ^ 32) = false →
        handle_ioio env c = { c with shutdown_req := true })) := by
  subst hport hsz
  constructor
  · intro hin
    simp at hin
    constructor
    · intro v hv
      simp at hv
      simp [handle_ioio, hin, hv]
    · intro hnone
      simp at hnone
      simp [handle_ioio, hin, hnone, guest_bad_fault]
  · intro hout
    simp at hout
    constructor
    · intro hw
      simp at hw
      simp [handle_ioio, hout, hw]
    · intro hw
      simp at hw
      simp [handle_ioio, hout, hw, guest_bad_fault]

/-- Concrete instance of C8: the 8-bit `out` to port 0x3F8 with
accumulator 0x41 reaches the device write and sets rip to the
hardware-supplied 0x77; the 8-bit `in` loads the device result 0x99 into
both accumulator copies and sets rip to 0x88. -/
theorem ioio_characterization_witness :
    handle_ioio c8_env c8_out_ctx =
      { c8_out_ctx with vmcb := { c8_out_ctx.vmcb with rip := 0x77 } } ∧
    handle_ioio c8_env c8_in_ctx =
      { c8_in_ctx with
        g_regs := updReg c8_in_ctx.g_regs GUEST_REGS_RAX 0x99,
        vmcb := { c8_in_ctx.vmcb with rax := 0x99, rip := 0x88 } } := by
  have hout := ((ioio_characterization c8_env c8_out_ctx 0x3f8 1
      (by decide) (by decide)).2 (by decide)).1 (by decide)
  have hin := ((ioio_characterization c8_env c8_in_ctx 0x3f8 1
      (by decide) (by decide)).1 (by decide)).1 0x99 (by decide)
  exact ⟨hout, hin⟩

/-! ## Claim C9 -/

/-- Claim C9 as stated is false: with a page fault at 0x1500 inside the
non-REAL region [0x1000, 0x2000) and a memory-to-memory move both of
whose operands lie OUTSIDE that region, the handler does not escalate —
both region-membership tests fail, so it falls through and advances rip
by the decoded length. -/
theorem pf_mem_to_mem_counterexample :
    (handle_vm_exception c9_env c9_ctx hm0).1.shutdown_req = false ∧
    (handle_vm_exception c9_env c9_ctx hm0).1.vmcb.rip = 0x43 := by
  constructor <;> decide

/-- Claim C9 amended: when a page fault in a non-REAL region decodes to
a memory-to-memory move (source not immediate, neither operand index a
supported general register) AND one of the two operand addresses lies
within the faulting region, the handler escalates via the
emergency-shutdown hook, no guest general register is mutated, the
instruction pointer is not advanced, and host memory is untouched. -/
theorem pf_mem_to_mem_escalates (env : Env) (c : HWContext) (hm : HostMem)
    (reg : VmmRegion) (m : GenMovInst) (sz : Nat)
    (hec : c.vmcb.exitcode = VMEXIT_EXCEPTION_PF)
    (hreg : env.find_region c.vmcb.exitinfo2 = some reg)
    (hnotreal : reg.flags &&& VMM_REGION_REAL = 0)
    (hfd : env.fetch_decode = some { kind := InstKind.genMov m, inst_size := sz })
    (hsrcnotimm : m.src_type ≠ OP_TYPE_IMM)
    (hsrcreg : ¬ m.src_addr < RM_REG_MAX)
    (hdstreg : ¬ m.dst_addr < RM_REG_MAX)
    (hinreg : (reg.gphys_addr ≤ m.src_addr ∧ m.src_addr < reg.gphys_addr + reg.phys_size) ∨
              (reg.gphys_addr ≤ m.dst_addr ∧ m.dst_addr < reg.gphys_addr + reg.phys_size)) :
    (handle_vm_exception env c hm).1.shutdown_req = true ∧
    (handle_vm_exception env c hm).1.g_regs = c.g_regs ∧
    (handle_vm_exception env c hm).1.vmcb.rip = c.vmcb.rip ∧
    (handle_vm_exception env c hm).2 = hm := by
  by_cases hsrcin : reg.gphys_addr ≤ m.src_addr ∧ m.src_addr < reg.gphys_addr + reg.phys_size
  · cases hread : env.mmio_read c.vmcb.exitinfo2 m.op_size with
    | none =>
      simp [handle_vm_exception, hec, hreg, hnotreal, hfd, hsrcin, hread, guest_bad_fault]
    | some v =>
      have hdst2 : ¬ (RM_REG_AX ≤ m.dst_addr ∧ m.dst_addr < RM_REG_MAX) := by
        intro hcon
        exact hdstreg hcon.2
      simp [handle_vm_exception, hec, hreg, hnotreal, hfd, hsrcin, hread, hdst2,
            guest_bad_fault]
  · have hdstin : reg.gphys_addr ≤ m.dst_addr ∧ m.dst_addr < reg.gphys_addr + reg.phys_size :=
      hinreg.resolve_left hsrcin
    have hsrc2 : ¬ (RM_REG_AX ≤ m.src_addr ∧ m.src_addr < RM_REG_MAX) := by
      intro hcon
      exact hsrcreg hcon.2
    simp [handle_vm_exception, hec, hreg, hnotreal, hfd, hsrcin, hdstin, hsrcnotimm, hsrc2,
          guest_bad_fault]

/-- Concrete instance of the amended C9: the same fault with the move's
source at 0x1800 (inside the region) and destination 0x200000 (memory):
the handler escalates with registers, rip, and host memory untouched. -/
theorem pf_mem_to_mem_escalates_witness :
    (handle_vm_exception c9_env2 c9_ctx hm0).1.shutdown_req = true ∧
    (handle_vm_exception c9_env2 c9_ctx hm0).1.g_regs = c9_ctx.g_regs ∧
    (handle_vm_exception c9_env2 c9_ctx hm0).1.vmcb.rip = c9_ctx.vmcb.rip ∧
    (handle_vm_exception c9_env2 c9_ctx hm0).2 = hm0 :=
  pf_mem_to_mem_escalates c9_env2 c9_ctx hm0 c9_region
    { src_type := OP_TYPE_MEM, dst_type := OP_TYPE_MEM, src_addr := 0x1800,
      dst_addr := 0x200000, op_size := 4 } 3
    rfl (by decide) (by decide) rfl (by decide) (by decide) (by decide)
    (Or.inl (by decide))

/-! ## Claim C10 -/

/-- Claim C10: for every MSR exit whose exitinfo1 is not 1 (an MSR-read
intercept), the dispatcher invokes no handler and does not escalate: it
returns with all guest-visible state, including rip, unchanged. -/
theorem msr_read_exit_ignored (env : Env) (c : HWContext) (hm : HostMem)
    (hec : c.vmcb.exitcode = VMEXIT_MSR)
    (hinfo : c.vmcb.exitinfo1 ≠ 1) :
    handle_vcpuexit env c hm = (c, hm) := by
  simp [handle_vcpuexit, hec, hinfo, VMEXIT_CR0_READ, VMEXIT_CR15_READ,
        VMEXIT_CR0_WRITE, VMEXIT_CR15_WRITE, VMEXIT_MSR]

/-- Concrete instance of C10: an MSR exit with exitinfo1 = 0 resumes the
guest with nothing changed. -/
theorem msr_read_exit_ignored_witness :
    c10_ctx.vmcb.exitcode = VMEXIT_MSR ∧ c10_ctx.vmcb.exitinfo1 ≠ 1 ∧
    handle_vcpuexit env0 c10_ctx hm0 = (c10_ctx, hm0) :=
  ⟨rfl, by decide, msr_read_exit_ignored env0 c10_ctx hm0 rfl (by decide)⟩

end Xvisor
